import Mathlib

/-!
Verification development for the sunset_predictor repository.

The scoring function score_sunset (sunset_score.py) is embedded over the
real numbers, with math.exp translated to Real.exp; the rating-bucket
lookup (weather.py / timeline.py) is embedded over the rationals with
fallible list indexing, and the per-day sunset-hour alignment loop
(timeline.py, calculate_sunset_scores) is embedded as a recursion over
the list of hour-of-day values of the day's hourly timestamps.
-/

namespace SunsetPredictor

/-- Embeds gaussian_score from sunset_score.py: a 0-1 factor based on
distance from the optimal value, exp(-(distance**2) / (2 * sigma**2)). -/
noncomputable def gaussian_score (distance : ℝ) (sigma : ℝ) : ℝ :=
  Real.exp (-(distance ^ 2) / (2 * sigma ^ 2))

/-- Embeds the cloud_type_score local of score_sunset: a sigmoid of
cloud_quality = (cloud_mid + cloud_high) / 2 - cloud_low, scaled to 0-100. -/
noncomputable def cloud_type_score (cloud_low cloud_mid cloud_high : ℝ) : ℝ :=
  1.0 / (1.0 + Real.exp (-((cloud_mid + cloud_high) / 2 - cloud_low) / 20)) * 100

/-- Embeds the cloud_score local of score_sunset: the average of the
coverage sub-score (gaussian around 50 percent cover) and the type sub-score. -/
noncomputable def cloud_score (cloud_cover cloud_low cloud_mid cloud_high : ℝ) : ℝ :=
  (gaussian_score |cloud_cover - 50| 20 * 100 +
    cloud_type_score cloud_low cloud_mid cloud_high) / 2

/-- Embeds the pm_score local of score_sunset: gaussian around 15 ug/m3. -/
noncomputable def pm_score (pm2_5 : ℝ) : ℝ :=
  gaussian_score |pm2_5 - 15| 35 * 100

/-- Embeds the aod_score local of score_sunset: fixed 30 below 0.05,
otherwise a gaussian around 0.3. -/
noncomputable def aod_score (aod : ℝ) : ℝ :=
  if aod < 0.05 then 30 else gaussian_score |aod - 0.3| 0.4 * 100

/-- Embeds the size_score local of score_sunset: when pm2_5 > 0 the ratio
pm10 / pm2_5 is scored (100 inside [2.0, 3.5], else 70); when the guard
fails the fixed value 50 is returned and no division is performed. -/
noncomputable def size_score (pm2_5 pm10 : ℝ) : ℝ :=
  if pm2_5 > 0 then
    (if 2.0 ≤ pm10 / pm2_5 ∧ pm10 / pm2_5 ≤ 3.5 then 100 else 70)
  else 50

/-- Embeds the particle_score local of score_sunset. -/
noncomputable def particle_score (pm2_5 pm10 aod : ℝ) : ℝ :=
  pm_score pm2_5 * 0.5 + aod_score aod * 0.4 + size_score pm2_5 pm10 * 0.1

/-- Embeds the humidity_score local of score_sunset: gaussian around 60. -/
noncomputable def humidity_score (humidity : ℝ) : ℝ :=
  gaussian_score |humidity - 60| 20 * 100

/-- Embeds the visibility_score local of score_sunset: a linear ramp with
denominator 5000 below 5000 m, and min(100, visibility / 10000 * 100) at
or above 5000 m. -/
noncomputable def visibility_score (visibility : ℝ) : ℝ :=
  if visibility < 5000 then visibility / 5000 * 100
  else min 100 (visibility / 10000 * 100)

/-- Embeds the base_score local of score_sunset: the weighted average
cloud 0.40 + particle 0.30 + visibility 0.20 + humidity 0.10. -/
noncomputable def base_score
    (cloud_cover cloud_low cloud_mid cloud_high humidity visibility pm2_5 pm10 aod : ℝ) : ℝ :=
  cloud_score cloud_cover cloud_low cloud_mid cloud_high * 0.40 +
    particle_score pm2_5 pm10 aod * 0.30 +
    visibility_score visibility * 0.20 +
    humidity_score humidity * 0.10

/-- Embeds the cloud_ceiling local of score_sunset. -/
noncomputable def cloud_ceiling (cloud_cover : ℝ) : ℝ :=
  if cloud_cover < 10 then 30 else if cloud_cover < 25 then 50 else 100

/-- Embeds the particle_ceiling local of score_sunset. -/
noncomputable def particle_ceiling (pm2_5 aod : ℝ) : ℝ :=
  if pm2_5 > 75 ∨ aod > 1.5 then 40
  else if pm2_5 > 55 ∨ aod > 1.0 then 60
  else 100

/-- Embeds score_sunset from sunset_score.py: ceiling = min of the two
ceilings, final_score = min(base_score, ceiling), and the returned value
is max(0, min(100, final_score)). -/
noncomputable def score_sunset
    (cloud_cover cloud_low cloud_mid cloud_high humidity visibility pm2_5 pm10 aod : ℝ) : ℝ :=
  max 0 (min 100
    (min (base_score cloud_cover cloud_low cloud_mid cloud_high humidity visibility pm2_5 pm10 aod)
      (min (cloud_ceiling cloud_cover) (particle_ceiling pm2_5 aod))))

/-- Embeds the ratings list of weather.py / timeline.py. -/
def ratings : List String := ["Poor", "Fair", "Good", "Great", "Amazing"]

/-- Embeds the index expression int(score // 20) of weather.py /
timeline.py; for the nonnegative scores the claims range over, Python
floor division followed by int truncation is the mathematical floor. -/
def rating_index (score : ℚ) : ℤ :=
  ⌊score / 20⌋

/-- Embeds the lookup ratings[int(score // 20)]: a Python list access
that raises IndexError out of range is modelled as none. Python's
wrap-around semantics for indices in [-5, -1] is not modelled; for
nonnegative indices, which are the only ones the claims range over, a
negative index never arises. -/
def rating_of_score (score : ℚ) : Option String :=
  if 0 ≤ rating_index score then ratings.get? (rating_index score).toNat else none

/-- Embeds the scanning loop of calculate_sunset_scores (timeline.py):
given the hour-of-day of each timestamp of the day's hourly slice, the
index of the first entry equal to the sunset hour, none if no entry
matches. -/
def find_sunset_index : List ℕ → ℕ → Option ℕ
  | [], _ => none
  | t :: rest, sunset_hour =>
    if t = sunset_hour then some 0
    else (find_sunset_index rest sunset_hour).map (fun i => i + 1)

/-- Embeds the alignment of calculate_sunset_scores: the first matching
index when the scan succeeds, and the fallback index len - 1 (the last
hour of the day slice) when it does not. -/
def align_index (day_hourly_hours : List ℕ) (sunset_hour : ℕ) : ℕ :=
  match find_sunset_index day_hourly_hours sunset_hour with
  | some i => i
  | none => day_hourly_hours.length - 1

end SunsetPredictor

namespace SunsetPredictor

/-- C1: for every reading with all nine numeric fields within their
stated domains (cloud fields and humidity in 0-100, visibility, pm2_5,
pm10 and aod nonnegative), the final score returned by score_sunset lies
in the closed interval [0, 100]. -/
theorem score_sunset_in_unit_range
    (cloud_cover cloud_low cloud_mid cloud_high humidity visibility pm2_5 pm10 aod : ℝ)
    (hdom : 0 ≤ cloud_cover ∧ cloud_cover ≤ 100 ∧ 0 ≤ cloud_low ∧ cloud_low ≤ 100 ∧
      0 ≤ cloud_mid ∧ cloud_mid ≤ 100 ∧ 0 ≤ cloud_high ∧ cloud_high ≤ 100 ∧
      0 ≤ humidity ∧ humidity ≤ 100 ∧ 0 ≤ visibility ∧ 0 ≤ pm2_5 ∧ 0 ≤ pm10 ∧ 0 ≤ aod) :
    0 ≤ score_sunset cloud_cover cloud_low cloud_mid cloud_high humidity visibility pm2_5 pm10 aod ∧
      score_sunset cloud_cover cloud_low cloud_mid cloud_high humidity visibility pm2_5 pm10 aod ≤ 100 := by
  unfold score_sunset
  refine ⟨le_max_left 0 _, max_le (by norm_num) (min_le_left _ _)⟩

/-- Witness for C1 at the all-zero reading. -/
theorem score_sunset_in_unit_range_witness :
    ((0:ℝ) ≤ 0 ∧ (0:ℝ) ≤ 100 ∧ (0:ℝ) ≤ 0 ∧ (0:ℝ) ≤ 100 ∧ (0:ℝ) ≤ 0 ∧ (0:ℝ) ≤ 100 ∧
      (0:ℝ) ≤ 0 ∧ (0:ℝ) ≤ 100 ∧ (0:ℝ) ≤ 0 ∧ (0:ℝ) ≤ 100 ∧ (0:ℝ) ≤ 0 ∧ (0:ℝ) ≤ 0 ∧
      (0:ℝ) ≤ 0 ∧ (0:ℝ) ≤ 0) ∧
    (0 ≤ score_sunset 0 0 0 0 0 0 0 0 0 ∧ score_sunset 0 0 0 0 0 0 0 0 0 ≤ 100) :=
  ⟨by norm_num, score_sunset_in_unit_range 0 0 0 0 0 0 0 0 0 (by norm_num)⟩

/-- C3: for every reading within the stated input domains with
cloud_cover < 10, the final score returned by score_sunset is at most 30,
regardless of the values of the other eight fields. -/
theorem cloud_ceiling_dominates
    (cloud_cover cloud_low cloud_mid cloud_high humidity visibility pm2_5 pm10 aod : ℝ)
    (hdom : 0 ≤ cloud_cover ∧ cloud_cover ≤ 100 ∧ 0 ≤ cloud_low ∧ cloud_low ≤ 100 ∧
      0 ≤ cloud_mid ∧ cloud_mid ≤ 100 ∧ 0 ≤ cloud_high ∧ cloud_high ≤ 100 ∧
      0 ≤ humidity ∧ humidity ≤ 100 ∧ 0 ≤ visibility ∧ 0 ≤ pm2_5 ∧ 0 ≤ pm10 ∧ 0 ≤ aod)
    (hcc : cloud_cover < 10) :
    score_sunset cloud_cover cloud_low cloud_mid cloud_high humidity visibility pm2_5 pm10 aod ≤ 30 := by
  unfold score_sunset
  have hceil : cloud_ceiling cloud_cover = 30 := by
    unfold cloud_ceiling
    rw [if_pos hcc]
  refine max_le (by norm_num) ?_
  calc min 100 (min (base_score cloud_cover cloud_low cloud_mid cloud_high humidity visibility pm2_5 pm10 aod)
        (min (cloud_ceiling cloud_cover) (particle_ceiling pm2_5 aod)))
      ≤ min (cloud_ceiling cloud_cover) (particle_ceiling pm2_5 aod) :=
        le_trans (min_le_right _ _) (min_le_right _ _)
    _ ≤ cloud_ceiling cloud_cover := min_le_left _ _
    _ ≤ 30 := le_of_eq hceil

/-- Witness for C3 at a reading with 5 percent cloud cover. -/
theorem cloud_ceiling_dominates_witness :
    (((0:ℝ) ≤ 5 ∧ (5:ℝ) ≤ 100 ∧ (0:ℝ) ≤ 0 ∧ (0:ℝ) ≤ 100 ∧ (0:ℝ) ≤ 50 ∧ (50:ℝ) ≤ 100 ∧
      (0:ℝ) ≤ 50 ∧ (50:ℝ) ≤ 100 ∧ (0:ℝ) ≤ 60 ∧ (60:ℝ) ≤ 100 ∧ (0:ℝ) ≤ 20000 ∧ (0:ℝ) ≤ 15 ∧
      (0:ℝ) ≤ 40 ∧ (0:ℝ) ≤ 0.3) ∧ (5:ℝ) < 10) ∧
    score_sunset 5 0 50 50 60 20000 15 40 0.3 ≤ 30 :=
  ⟨⟨by norm_num, by norm_num⟩,
    cloud_ceiling_dominates 5 0 50 50 60 20000 15 40 0.3 (by norm_num) (by norm_num)⟩

/-- C4: for every reading within the stated input domains with pm2_5 > 75
or aod > 1.5, the final score returned by score_sunset is at most 40,
regardless of the values of the other fields. -/
theorem particle_ceiling_dominates
    (cloud_cover cloud_low cloud_mid cloud_high humidity visibility pm2_5 pm10 aod : ℝ)
    (hdom : 0 ≤ cloud_cover ∧ cloud_cover ≤ 100 ∧ 0 ≤ cloud_low ∧ cloud_low ≤ 100 ∧
      0 ≤ cloud_mid ∧ cloud_mid ≤ 100 ∧ 0 ≤ cloud_high ∧ cloud_high ≤ 100 ∧
      0 ≤ humidity ∧ humidity ≤ 100 ∧ 0 ≤ visibility ∧ 0 ≤ pm2_5 ∧ 0 ≤ pm10 ∧ 0 ≤ aod)
    (hbad : pm2_5 > 75 ∨ aod > 1.5) :
    score_sunset cloud_cover cloud_low cloud_mid cloud_high humidity visibility pm2_5 pm10 aod ≤ 40 := by
  unfold score_sunset
  have hceil : particle_ceiling pm2_5 aod = 40 := by
    unfold particle_ceiling
    rw [if_pos hbad]
  refine max_le (by norm_num) ?_
  calc min 100 (min (base_score cloud_cover cloud_low cloud_mid cloud_high humidity visibility pm2_5 pm10 aod)
        (min (cloud_ceiling cloud_cover) (particle_ceiling pm2_5 aod)))
      ≤ min (cloud_ceiling cloud_cover) (particle_ceiling pm2_5 aod) :=
        le_trans (min_le_right _ _) (min_le_right _ _)
    _ ≤ particle_ceiling pm2_5 aod := min_le_right _ _
    _ ≤ 40 := le_of_eq hceil

/-- Witness for C4 at a heavily polluted reading (pm2_5 = 80). -/
theorem particle_ceiling_dominates_witness :
    (((0:ℝ) ≤ 50 ∧ (50:ℝ) ≤ 100 ∧ (0:ℝ) ≤ 10 ∧ (10:ℝ) ≤ 100 ∧ (0:ℝ) ≤ 30 ∧ (30:ℝ) ≤ 100 ∧
      (0:ℝ) ≤ 40 ∧ (40:ℝ) ≤ 100 ∧ (0:ℝ) ≤ 65 ∧ (65:ℝ) ≤ 100 ∧ (0:ℝ) ≤ 15000 ∧ (0:ℝ) ≤ 80 ∧
      (0:ℝ) ≤ 150 ∧ (0:ℝ) ≤ 0.3) ∧ ((80:ℝ) > 75 ∨ (0.3:ℝ) > 1.5)) ∧
    score_sunset 50 10 30 40 65 15000 80 150 0.3 ≤ 40 :=
  ⟨⟨by norm_num, Or.inl (by norm_num)⟩,
    particle_ceiling_dominates 50 10 30 40 65 15000 80 150 0.3 (by norm_num)
      (Or.inl (by norm_num))⟩

/-- C8: for every reading with pm2_5 = 0, the particle size sub-score is
the fixed value 50, and its value does not depend on pm10 at all, so the
guarded division pm10 / pm2_5 is never evaluated and no division-by-zero
fault can occur. -/
theorem size_score_zero_guard (pm2_5 pm10 : ℝ) (h : pm2_5 = 0) :
    size_score pm2_5 pm10 = 50 ∧
      ∀ other_pm10 : ℝ, size_score pm2_5 pm10 = size_score pm2_5 other_pm10 := by
  subst h
  unfold size_score
  rw [if_neg (lt_irrefl 0)]
  exact ⟨rfl, fun _ => by rw [if_neg (lt_irrefl 0)]⟩

/-- Witness for C8 at pm2_5 = 0, pm10 = 7. -/
theorem size_score_zero_guard_witness :
    (0:ℝ) = 0 ∧ (size_score 0 7 = 50 ∧ ∀ other_pm10 : ℝ, size_score 0 7 = size_score 0 other_pm10) :=
  ⟨rfl, size_score_zero_guard 0 7 rfl⟩

/-- C9: score_sunset is deterministic and pure: two applications to
pointwise-equal inputs return equal final scores; the embedding is a
plain function of its nine arguments, which is the faithful translation
of the source, whose body reads no global mutable state or clock. -/
theorem score_sunset_deterministic
    (a1 a2 a3 a4 a5 a6 a7 a8 a9 b1 b2 b3 b4 b5 b6 b7 b8 b9 : ℝ)
    (h1 : a1 = b1) (h2 : a2 = b2) (h3 : a3 = b3) (h4 : a4 = b4) (h5 : a5 = b5)
    (h6 : a6 = b6) (h7 : a7 = b7) (h8 : a8 = b8) (h9 : a9 = b9) :
    score_sunset a1 a2 a3 a4 a5 a6 a7 a8 a9 = score_sunset b1 b2 b3 b4 b5 b6 b7 b8 b9 := by
  subst h1 h2 h3 h4 h5 h6 h7 h8 h9
  rfl

/-- Witness for C9 at a concrete pair of identical readings. -/
theorem score_sunset_deterministic_witness :
    ((50:ℝ) = 50 ∧ (10:ℝ) = 10 ∧ (30:ℝ) = 30 ∧ (40:ℝ) = 40 ∧ (65:ℝ) = 65 ∧
      (15000:ℝ) = 15000 ∧ (18:ℝ) = 18 ∧ (45:ℝ) = 45 ∧ (0.35:ℝ) = 0.35) ∧
    score_sunset 50 10 30 40 65 15000 18 45 0.35 =
      score_sunset 50 10 30 40 65 15000 18 45 0.35 :=
  ⟨⟨rfl, rfl, rfl, rfl, rfl, rfl, rfl, rfl, rfl⟩,
    score_sunset_deterministic 50 10 30 40 65 15000 18 45 0.35
      50 10 30 40 65 15000 18 45 0.35 rfl rfl rfl rfl rfl rfl rfl rfl rfl⟩

/-- C2 (evaluation at the failing boundary): the rating lookup of
weather.py / timeline.py computes the bucket index int(score // 20),
which is 5 at a score of exactly 100 while the ratings list has only the
five indices 0..4, so the lookup ratings[5] is out of range (an
IndexError in the source, modelled as none); just below the boundary the
lookup still yields some "Amazing". -/
theorem rating_at_hundred_overflow :
    rating_index 100 = 5 ∧ ratings.length = 5 ∧ rating_of_score 100 = none ∧
      rating_of_score 99.9 = some "Amazing" := by
  have h100 : rating_index 100 = 5 := by
    unfold rating_index
    norm_num
  have h999 : rating_index 99.9 = 4 := by
    unfold rating_index
    norm_num
  refine ⟨h100, rfl, ?_, ?_⟩
  · unfold rating_of_score
    rw [h100]
    norm_num [ratings]
  · unfold rating_of_score
    rw [h999]
    norm_num [ratings]
    rfl

/-- First-match soundness of the embedded scanning loop: a successful
scan returns an index holding the sunset hour, before which no entry
holds it. -/
lemma find_sunset_index_some {hours : List ℕ} {sh i : ℕ}
    (h : find_sunset_index hours sh = some i) :
    hours[i]? = some sh ∧ ∀ j < i, hours[j]? ≠ some sh := by
  induction hours generalizing i with
  | nil => simp [find_sunset_index] at h
  | cons t rest ih =>
    by_cases ht : t = sh
    · rw [find_sunset_index, if_pos ht] at h
      obtain rfl : (0 : ℕ) = i := Option.some_injective _ h
      subst ht
      exact ⟨by simp, fun j hj => absurd hj (Nat.not_lt_zero j)⟩
    · rw [find_sunset_index, if_neg ht] at h
      obtain ⟨i', hi', rfl⟩ := Option.map_eq_some'.mp h
      obtain ⟨hget, hfirst⟩ := ih hi'
      refine ⟨by simpa using hget, ?_⟩
      intro j hj
      cases j with
      | zero => simpa using fun hts => ht hts
      | succ k =>
        have hk : k < i' := Nat.succ_lt_succ_iff.mp hj
        simpa using hfirst k hk

/-- Completeness of the embedded scanning loop: a failed scan means no
entry of the slice holds the sunset hour. -/
lemma find_sunset_index_none {hours : List ℕ} {sh : ℕ}
    (h : find_sunset_index hours sh = none) :
    ∀ j : ℕ, hours[j]? ≠ some sh := by
  induction hours with
  | nil => intro j; simp
  | cons t rest ih =>
    by_cases ht : t = sh
    · rw [find_sunset_index, if_pos ht] at h
      exact absurd h (by simp)
    · rw [find_sunset_index, if_neg ht] at h
      have hrest : find_sunset_index rest sh = none := Option.map_eq_none'.mp h
      intro j
      cases j with
      | zero => simpa using fun hts => ht hts
      | succ k => simpa using ih hrest k

/-- C5: for every non-empty day slice of hourly timestamps (represented
by their hour-of-day values) and every sunset hour, align_index returns
the index of the first entry equal to the sunset hour, and the index of
the last entry when no entry matches; in both cases the returned index
is in range for the slice, so the subsequent extraction never raises. -/
theorem align_index_first_match_or_last (hours : List ℕ) (sh : ℕ) (hne : hours ≠ []) :
    align_index hours sh < hours.length ∧
      ((∃ j : ℕ, hours[j]? = some sh) →
        hours[align_index hours sh]? = some sh ∧
          ∀ j : ℕ, j < align_index hours sh → hours[j]? ≠ some sh) ∧
      ((∀ j : ℕ, hours[j]? ≠ some sh) → align_index hours sh = hours.length - 1) := by
  have hlen : 0 < hours.length := List.length_pos.mpr hne
  cases hfind : find_sunset_index hours sh with
  | none =>
    have halign : align_index hours sh = hours.length - 1 := by
      unfold align_index
      rw [hfind]
    refine ⟨?_, ?_, fun _ => halign⟩
    · rw [halign]
      exact Nat.sub_lt hlen Nat.one_pos
    · rintro ⟨j, hj⟩
      exact absurd hj (find_sunset_index_none hfind j)
  | some i =>
    obtain ⟨hget, hfirst⟩ := find_sunset_index_some hfind
    have halign : align_index hours sh = i := by
      unfold align_index
      rw [hfind]
    have hrange : i < hours.length := by
      by_contra hge
      rw [List.getElem?_eq_none (Nat.le_of_not_lt hge)] at hget
      exact Option.noConfusion hget
    refine ⟨halign ▸ hrange, fun _ => halign ▸ ⟨hget, hfirst⟩, fun hnone => ?_⟩
    exact absurd hget (hnone i)

/-- Witness for C5 at the slice of hours [16, 17, 18] with sunset hour 17. -/
theorem align_index_first_match_or_last_witness :
    ([16, 17, 18] : List ℕ) ≠ [] ∧
      (align_index [16, 17, 18] 17 < ([16, 17, 18] : List ℕ).length ∧
        ((∃ j : ℕ, ([16, 17, 18] : List ℕ)[j]? = some 17) →
          ([16, 17, 18] : List ℕ)[align_index [16, 17, 18] 17]? = some 17 ∧
            ∀ j : ℕ, j < align_index [16, 17, 18] 17 → ([16, 17, 18] : List ℕ)[j]? ≠ some 17) ∧
        ((∀ j : ℕ, ([16, 17, 18] : List ℕ)[j]? ≠ some 17) →
          align_index [16, 17, 18] 17 = ([16, 17, 18] : List ℕ).length - 1)) :=
  ⟨by decide, align_index_first_match_or_last [16, 17, 18] 17 (by decide)⟩

/-- Gaussian proximity at distance zero is exactly 1. -/
lemma gaussian_score_zero (sigma : ℝ) : gaussian_score 0 sigma = 1 := by
  unfold gaussian_score
  norm_num

/-- The cloud score is nonnegative: both of its summands are positive. -/
lemma cloud_score_nonneg (cloud_cover cloud_low cloud_mid cloud_high : ℝ) :
    0 ≤ cloud_score cloud_cover cloud_low cloud_mid cloud_high := by
  unfold cloud_score gaussian_score cloud_type_score
  positivity

/-- Evaluation of score_sunset at the Scenario C reading: the base score
is at least 60, the cloud ceiling tier for cloud_cover < 10 is 30, and
the final score is exactly 30. -/
lemma scenarioC_eval : score_sunset 5 5 0 0 60 20000 15 37.5 0.3 = 30 := by
  have hpm : pm_score 15 = 100 := by
    unfold pm_score
    rw [show |(15:ℝ) - 15| = 0 by norm_num, gaussian_score_zero]
    norm_num
  have haod : aod_score 0.3 = 100 := by
    unfold aod_score
    rw [if_neg (by norm_num : ¬ (0.3:ℝ) < 0.05),
      show |(0.3:ℝ) - 0.3| = 0 by norm_num, gaussian_score_zero]
    norm_num
  have hsize : size_score 15 37.5 = 100 := by
    unfold size_score
    rw [if_pos (by norm_num : (15:ℝ) > 0), if_pos (by norm_num)]
  have hpart : particle_score 15 37.5 0.3 = 100 := by
    unfold particle_score
    rw [hpm, haod, hsize]
    norm_num
  have hhum : humidity_score 60 = 100 := by
    unfold humidity_score
    rw [show |(60:ℝ) - 60| = 0 by norm_num, gaussian_score_zero]
    norm_num
  have hvis : visibility_score 20000 = 100 := by
    unfold visibility_score
    rw [if_neg (by norm_num : ¬ (20000:ℝ) < 5000)]
    norm_num [min_def]
  have hbase : 30 ≤ base_score 5 5 0 0 60 20000 15 37.5 0.3 := by
    unfold base_score
    rw [hpart, hhum, hvis]
    nlinarith [cloud_score_nonneg 5 5 0 0]
  have hcc : cloud_ceiling 5 = 30 := by
    unfold cloud_ceiling
    rw [if_pos (by norm_num : (5:ℝ) < 10)]
  have hpc : particle_ceiling 15 0.3 = 100 := by
    unfold particle_ceiling
    rw [if_neg (by norm_num : ¬ ((15:ℝ) > 75 ∨ (0.3:ℝ) > 1.5)),
      if_neg (by norm_num : ¬ ((15:ℝ) > 55 ∨ (0.3:ℝ) > 1.0))]
  unfold score_sunset
  rw [hcc, hpc]
  rw [min_eq_left (by norm_num : (30:ℝ) ≤ 100)]
  rw [min_eq_right hbase]
  rw [min_eq_right (by norm_num : (30:ℝ) ≤ 100)]
  rw [max_eq_right (by norm_num : (0:ℝ) ≤ 30)]

/-- C6 counterexample: at the Scenario C reading (cloud_cover = 5,
cloud_low = 5, cloud_mid = 0, cloud_high = 0, humidity = 60,
visibility = 20000, pm2_5 = 15, pm10 = 37.5, aod = 0.3) the final score
is not 50: the cloud-cover tier below 10 percent returns the ceiling 30,
not 50. -/
theorem scenarioC_not_fifty : score_sunset 5 5 0 0 60 20000 15 37.5 0.3 ≠ 50 := by
  rw [scenarioC_eval]
  norm_num

/-- C6 amended: at the Scenario C reading the final score is exactly 30:
the 30-point cloud ceiling for cloud_cover < 10 binds and caps an
otherwise-high base score. -/
theorem scenarioC_score_thirty : score_sunset 5 5 0 0 60 20000 15 37.5 0.3 = 30 :=
  scenarioC_eval

/-- Elementary two-sided bounds for exp(-x) with x nonnegative. -/
lemma exp_neg_bounds {x : ℝ} (hx : 0 ≤ x) :
    1 - x ≤ Real.exp (-x) ∧ Real.exp (-x) ≤ (1 + x)⁻¹ := by
  constructor
  · have h := Real.add_one_le_exp (-x)
    linarith
  · have h := Real.add_one_le_exp x
    rw [Real.exp_neg]
    exact inv_anti₀ (by linarith) (by linarith)

/-- Lower Taylor bound for exp(5/8). -/
lemma exp_five_eighths_lb : (1.867 : ℝ) ≤ Real.exp (5 / 8) := by
  have h := Real.sum_le_exp_of_nonneg (by norm_num : (0:ℝ) ≤ 5 / 8) 5
  refine le_trans ?_ h
  rw [Finset.sum_range_succ, Finset.sum_range_succ, Finset.sum_range_succ,
    Finset.sum_range_succ, Finset.sum_range_succ, Finset.sum_range_zero]
  norm_num [Nat.factorial]

/-- Upper Taylor bound for exp(5/8). -/
lemma exp_five_eighths_ub : Real.exp (5 / 8) ≤ 1.869 := by
  have h := Real.exp_bound' (by norm_num : (0:ℝ) ≤ 5 / 8) (by norm_num : (5:ℝ) / 8 ≤ 1)
    (by norm_num : 0 < 4)
  refine le_trans h ?_
  rw [Finset.sum_range_succ, Finset.sum_range_succ, Finset.sum_range_succ,
    Finset.sum_range_succ, Finset.sum_range_zero]
  norm_num [Nat.factorial]

/-- Two-sided bounds for exp(5/4), obtained by squaring the bounds for
exp(5/8). -/
lemma exp_five_quarters_bounds :
    (3.48 : ℝ) ≤ Real.exp (5 / 4) ∧ Real.exp (5 / 4) ≤ 3.5 := by
  have hsplit : Real.exp (5 / 4) = Real.exp (5 / 8) * Real.exp (5 / 8) := by
    rw [← Real.exp_add]
    norm_num
  have hlb := exp_five_eighths_lb
  have hub := exp_five_eighths_ub
  have hpos : (0:ℝ) < Real.exp (5 / 8) := Real.exp_pos _
  rw [hsplit]
  constructor <;> nlinarith

/-- Evaluation bounds for score_sunset at the Scenario A reading: the
final score lies between 95 and 95.2. -/
lemma scenarioA_eval_bounds :
    (95:ℝ) ≤ score_sunset 50 10 30 40 65 15000 18 45 0.35 ∧
      score_sunset 50 10 30 40 65 15000 18 45 0.35 ≤ 95.2 := by
  have hcov : gaussian_score |(50:ℝ) - 50| 20 = 1 := by
    rw [show |(50:ℝ) - 50| = 0 by norm_num, gaussian_score_zero]
  have hct : (77.6:ℝ) ≤ cloud_type_score 10 30 40 ∧ cloud_type_score 10 30 40 ≤ 77.8 := by
    unfold cloud_type_score
    rw [show -(((30:ℝ) + 40) / 2 - 10) / 20 = -(5 / 4) by norm_num, Real.exp_neg]
    have hE := exp_five_quarters_bounds
    have hEpos : (0:ℝ) < Real.exp (5 / 4) := Real.exp_pos _
    have ht1 : (Real.exp (5 / 4))⁻¹ ≤ 0.2874 :=
      le_trans (inv_anti₀ (by norm_num) hE.1) (by norm_num)
    have ht2 : (0.2857:ℝ) ≤ (Real.exp (5 / 4))⁻¹ :=
      le_trans (by norm_num) (inv_anti₀ hEpos hE.2)
    have htpos : (0:ℝ) < (Real.exp (5 / 4))⁻¹ := inv_pos.mpr hEpos
    have hden : (0:ℝ) < 1.0 + (Real.exp (5 / 4))⁻¹ := by linarith
    constructor
    · rw [div_mul_eq_mul_div, le_div_iff₀ hden]
      linarith
    · rw [div_mul_eq_mul_div, div_le_iff₀ hden]
      linarith
  have hpm : (99.63:ℝ) ≤ pm_score 18 ∧ pm_score 18 ≤ 99.64 := by
    unfold pm_score gaussian_score
    rw [show |(18:ℝ) - 15| = 3 by norm_num,
      show -((3:ℝ) ^ 2) / (2 * 35 ^ 2) = -(9 / 2450) by norm_num]
    have h := exp_neg_bounds (show (0:ℝ) ≤ 9 / 2450 by norm_num)
    have hinv : ((1:ℝ) + 9 / 2450)⁻¹ ≤ 0.9964 := by norm_num
    constructor
    · nlinarith [h.1]
    · nlinarith [h.2, hinv]
  have haod : (99.21:ℝ) ≤ aod_score 0.35 ∧ aod_score 0.35 ≤ 99.23 := by
    unfold aod_score gaussian_score
    rw [if_neg (by norm_num : ¬ (0.35:ℝ) < 0.05),
      show |(0.35:ℝ) - 0.3| = 0.05 by norm_num,
      show -((0.05:ℝ) ^ 2) / (2 * 0.4 ^ 2) = -(1 / 128) by norm_num]
    have h := exp_neg_bounds (show (0:ℝ) ≤ 1 / 128 by norm_num)
    have hinv : ((1:ℝ) + 1 / 128)⁻¹ ≤ 0.9923 := by norm_num
    constructor
    · nlinarith [h.1]
    · nlinarith [h.2, hinv]
  have hsize : size_score 18 45 = 100 := by
    unfold size_score
    rw [if_pos (by norm_num : (18:ℝ) > 0), if_pos (by norm_num)]
  have hpart : (99.49:ℝ) ≤ particle_score 18 45 0.35 ∧ particle_score 18 45 0.35 ≤ 99.52 := by
    unfold particle_score
    rw [hsize]
    constructor
    · nlinarith [hpm.1, haod.1]
    · nlinarith [hpm.2, haod.2]
  have hhum : (96.87:ℝ) ≤ humidity_score 65 ∧ humidity_score 65 ≤ 96.97 := by
    unfold humidity_score gaussian_score
    rw [show |(65:ℝ) - 60| = 5 by norm_num,
      show -((5:ℝ) ^ 2) / (2 * 20 ^ 2) = -(1 / 32) by norm_num]
    have h := exp_neg_bounds (show (0:ℝ) ≤ 1 / 32 by norm_num)
    have hinv : ((1:ℝ) + 1 / 32)⁻¹ ≤ 0.9697 := by norm_num
    constructor
    · nlinarith [h.1]
    · nlinarith [h.2, hinv]
  have hvis : visibility_score 15000 = 100 := by
    unfold visibility_score
    rw [if_neg (by norm_num : ¬ (15000:ℝ) < 5000)]
    norm_num [min_def]
  have hbase : (95:ℝ) ≤ base_score 50 10 30 40 65 15000 18 45 0.35 ∧
      base_score 50 10 30 40 65 15000 18 45 0.35 ≤ 95.2 := by
    unfold base_score cloud_score
    rw [hcov, hvis]
    constructor
    · nlinarith [hct.1, hpart.1, hhum.1]
    · nlinarith [hct.2, hpart.2, hhum.2]
  have hcc : cloud_ceiling 50 = 100 := by
    unfold cloud_ceiling
    rw [if_neg (by norm_num : ¬ (50:ℝ) < 10), if_neg (by norm_num : ¬ (50:ℝ) < 25)]
  have hpc : particle_ceiling 18 0.35 = 100 := by
    unfold particle_ceiling
    rw [if_neg (by norm_num : ¬ ((18:ℝ) > 75 ∨ (0.35:ℝ) > 1.5)),
      if_neg (by norm_num : ¬ ((18:ℝ) > 55 ∨ (0.35:ℝ) > 1.0))]
  unfold score_sunset
  rw [hcc, hpc, min_self,
    min_eq_left (le_trans hbase.2 (by norm_num : (95.2:ℝ) ≤ 100)),
    min_eq_right (le_trans hbase.2 (by norm_num : (95.2:ℝ) ≤ 100)),
    max_eq_right (le_trans (by norm_num : (0:ℝ) ≤ 95) hbase.1)]
  exact hbase

/-- C7 counterexample: at the Scenario A reading (cloud_cover = 50,
cloud_low = 10, cloud_mid = 30, cloud_high = 40, humidity = 65,
visibility = 15000, pm2_5 = 18, pm10 = 45, aod = 0.35) the final score
does not lie in [75, 85]: it exceeds 85. -/
theorem scenarioA_not_in_75_85 :
    ¬ (75 ≤ score_sunset 50 10 30 40 65 15000 18 45 0.35 ∧
        score_sunset 50 10 30 40 65 15000 18 45 0.35 ≤ 85) := by
  intro h
  have hlb := scenarioA_eval_bounds.1
  linarith [h.2]

/-- C7 amended: at the Scenario A reading the final score lies in the
interval [95, 95.2]; no ceiling binds there, and the weighted base score
is about 95.1, above the interval [75, 85] stated by the specification. -/
theorem scenarioA_in_95_95p2 :
    (95:ℝ) ≤ score_sunset 50 10 30 40 65 15000 18 45 0.35 ∧
      score_sunset 50 10 30 40 65 15000 18 45 0.35 ≤ 95.2 :=
  scenarioA_eval_bounds

/-- C10: the visibility sub-score is not monotone in visibility: at
visibility 4999 the score is 99.98, approaching 100 from below the 5000 m
threshold, while at exactly 5000 m the other branch with denominator
10000 yields 50, so a strictly smaller visibility gets a strictly larger
score. -/
theorem visibility_score_not_monotone :
    (4999 : ℝ) < 5000 ∧ visibility_score 5000 < visibility_score 4999 ∧
      visibility_score 4999 = 99.98 ∧ visibility_score 5000 = 50 := by
  unfold visibility_score
  rw [if_pos (by norm_num : (4999:ℝ) < 5000), if_neg (by norm_num : ¬ (5000:ℝ) < 5000)]
  norm_num [min_def]

end SunsetPredictor
